import Mathlib

/-!
Verification of the sql_server_agent repository's token-lifecycle,
model-selection, CLI-loop and HTTP-handler logic.

The Python source is shallowly embedded as pure Lean functions:
  * environment variables become an explicit `Env` record of `Option String`;
  * `datetime.now()` becomes an explicit `now : Int` parameter (seconds);
  * the `httpx` network layer becomes an oracle `respond : TokenRequest → TokenResponse`;
  * each effectful function returns its result paired with a `List Ev` trace
    recording credential-provider invocations, network POSTs and
    model-selection invocations;
  * Python exceptions become `Except String` with the exception message.
-/

/-- Environment variables read by `src/agent/sql_agent.py` (`os.getenv`);
`none` means unset, `some ""` means set to the empty string. -/
structure Env where
  MODEL_PROVIDER : Option String
  OPENAI_API_KEY : Option String
  OPENAI_MODEL_ID : Option String
  AZURE_CLIENT_ID : Option String
  AZURE_CLIENT_SECRET : Option String
  AZURE_PROJECT_ID : Option String
  AZURE_MODEL_ID : Option String
  AZURE_DEPLOYMENT : Option String
  AZURE_API_VERSION : Option String
  AZURE_ENDPOINT : Option String
deriving DecidableEq

/-- Python truthiness of an `os.getenv` result: `not value` is true when the
variable is unset or set to the empty string. -/
def envFalsy : Option String → Bool
  | none => true
  | some s => s.isEmpty

/-- Python `str.lower()`: lowercase every character (the inputs here are
ASCII, where `Char.toLower` agrees with Python). -/
def pyLower (s : String) : String :=
  ⟨s.data.map Char.toLower⟩

/-- Python `str.strip()`: drop leading and trailing whitespace. -/
def pyStrip (s : String) : String :=
  ⟨((s.data.dropWhile Char.isWhitespace).reverse.dropWhile Char.isWhitespace).reverse⟩

/-- The expression `os.getenv("MODEL_PROVIDER", "openai").lower()`, as computed at the top of
both `get_access_token` and `get_model`. -/
def providerOf (env : Env) : String :=
  pyLower (env.MODEL_PROVIDER.getD "openai")

/-- The HTTP request issued by `get_access_token`'s `client.post(auth,
headers=headers, data=body, timeout=60)`: a form-encoded POST carrying the
client-credentials grant. -/
structure TokenRequest where
  url : String
  method : String
  contentType : String
  grant_type : String
  scope : String
  client_id : Option String
  client_secret : Option String
  timeout : Nat
deriving DecidableEq

/-- The token endpoint's HTTP response: status code plus the JSON fields the
endpoint may report. `expires_in` is the server-reported token lifetime;
the source never reads it. -/
structure TokenResponse where
  status : Nat
  access_token : String
  expires_in : Nat
deriving DecidableEq

/-- The `httpx` condition `response.is_success`, the condition under which
`raise_for_status()` does not raise. -/
def isSuccess (status : Nat) : Prop :=
  200 ≤ status ∧ status < 300

instance (status : Nat) : Decidable (isSuccess status) := by
  unfold isSuccess; infer_instance

/-- Observable events of the embedded functions. -/
inductive Ev where
  /-- `get_access_token` was invoked (the Credential Provider). -/
  | fetchToken
  /-- a network POST was performed with the given request. -/
  | httpPost (req : TokenRequest)
  /-- `get_model` was invoked (the Model Selector). -/
  | selectModel
deriving DecidableEq

/-- Number of network POSTs in a trace. -/
def numPosts (evs : List Ev) : Nat :=
  (evs.filter fun e => match e with | .httpPost _ => true | _ => false).length

/-- Number of Credential Provider invocations in a trace. -/
def numFetches (evs : List Ev) : Nat :=
  (evs.filter fun e => match e with | .fetchToken => true | _ => false).length

/-- The fixed request `get_access_token` builds in its azure branch:
`auth`, `scope` and `grant_type` are literals in the source, the client
credentials come from the environment, and the timeout is 60 seconds. -/
def tokenRequest (env : Env) : TokenRequest :=
  { url := "https://api.uhg.com/oauth2/token"
    method := "POST"
    contentType := "application/x-www-form-urlencoded"
    grant_type := "client_credentials"
    scope := "https://api.uhg.com/.default"
    client_id := env.AZURE_CLIENT_ID
    client_secret := env.AZURE_CLIENT_SECRET
    timeout := 60 }

/-- Embeds `get_access_token()` from `src/agent/sql_agent.py`: returns the dummy
token when the provider is not azure; otherwise POSTs the client-credentials
form to the fixed endpoint, raises on a non-success status
(`response.raise_for_status()`), and returns the `access_token` field of the
JSON body. The trace records the invocation and any network POST. -/
def get_access_token (env : Env) (respond : TokenRequest → TokenResponse) :
    Except String String × List Ev :=
  if providerOf env ≠ "azure" then
    (.ok "dummy_token_for_compatibility", [.fetchToken])
  else if isSuccess (respond (tokenRequest env)).status then
    (.ok (respond (tokenRequest env)).access_token,
     [.fetchToken, .httpPost (tokenRequest env)])
  else
    (.error ("HTTP status error: " ++ toString (respond (tokenRequest env)).status),
     [.fetchToken, .httpPost (tokenRequest env)])

/-- The mutable state of an `AutoRefreshAzureOpenAI` instance: the
constructor keyword arguments passed in `get_model`'s azure branch plus the
`token_expiry` timestamp set by `__init__` and `_refresh_token_if_needed`. -/
structure AutoRefreshAzureOpenAI where
  id : String
  azure_deployment : String
  api_version : String
  azure_endpoint : String
  azure_ad_token : String
  projectId : String
  token_expiry : Int
deriving DecidableEq

/-- Five-minute staleness margin (`timedelta(minutes=5)`), in seconds. -/
def refreshMargin : Int := 300

/-- One-hour token lifetime (`timedelta(hours=1)`), in seconds. -/
def tokenLifetime : Int := 3600

/-- Embeds `AutoRefreshAzureOpenAI._refresh_token_if_needed`: when
`now >= token_expiry - 5 minutes` it reassigns `self.azure_ad_token` from a
fresh `get_access_token()` call and reassigns `self.token_expiry` to
`now + 1 hour`, leaving every other attribute of the object untouched;
otherwise it does nothing. -/
def AutoRefreshAzureOpenAI.refresh_token_if_needed (env : Env)
    (respond : TokenRequest → TokenResponse) (now : Int)
    (st : AutoRefreshAzureOpenAI) :
    Except String AutoRefreshAzureOpenAI × List Ev :=
  if now ≥ st.token_expiry - refreshMargin then
    match get_access_token env respond with
    | (.ok tok, evs) =>
        (.ok { st with azure_ad_token := tok, token_expiry := now + tokenLifetime }, evs)
    | (.error e, evs) => (.error e, evs)
  else
    (.ok st, [])

/-- Embeds `AutoRefreshAzureOpenAI.invoke`: runs the refresh check, then forwards
the call to the superclass; the forwarded call carries the (possibly
refreshed) state and uses its `azure_ad_token` as the credential. -/
def AutoRefreshAzureOpenAI.invoke (env : Env)
    (respond : TokenRequest → TokenResponse) (now : Int)
    (st : AutoRefreshAzureOpenAI) :
    Except String (AutoRefreshAzureOpenAI × String) × List Ev :=
  match st.refresh_token_if_needed env respond now with
  | (.ok st2, evs) => (.ok (st2, st2.azure_ad_token), evs)
  | (.error e, evs) => (.error e, evs)

/-- The model client `get_model` constructs: either an `OpenAIChat` bound to
a model id and API key, or an `AutoRefreshAzureOpenAI` instance. -/
inductive ModelClient where
  | OpenAIChat (id : String) (api_key : String)
  | AzureModel (st : AutoRefreshAzureOpenAI)
deriving DecidableEq

/-- Embeds `get_model()` from `src/agent/sql_agent.py`: dispatches on the lowercased
`MODEL_PROVIDER` (default `"openai"`). The openai branch requires a truthy
`OPENAI_API_KEY`; the azure branch requires a truthy `AZURE_PROJECT_ID`,
fetches a token via `get_access_token`, and builds an
`AutoRefreshAzureOpenAI` whose `__init__` sets `token_expiry` to
`datetime.now() + timedelta(hours=1)`; any other value raises
`ValueError(f"Unsupported MODEL_PROVIDER: ...")`. -/
def get_model (env : Env) (respond : TokenRequest → TokenResponse) (now : Int) :
    Except String ModelClient × List Ev :=
  if providerOf env = "openai" then
    if envFalsy env.OPENAI_API_KEY then
      (.error "OPENAI_API_KEY is required when MODEL_PROVIDER=openai", [.selectModel])
    else
      (.ok (.OpenAIChat (env.OPENAI_MODEL_ID.getD "gpt-4") (env.OPENAI_API_KEY.getD "")),
       [.selectModel])
  else if providerOf env = "azure" then
    if envFalsy env.AZURE_PROJECT_ID then
      (.error "AZURE_PROJECT_ID is required when MODEL_PROVIDER=azure", [.selectModel])
    else
      match get_access_token env respond with
      | (.ok tok, evs) =>
          (.ok (.AzureModel
            { id := env.AZURE_MODEL_ID.getD "gpt-4.1"
              azure_deployment := env.AZURE_DEPLOYMENT.getD "gpt-4.1_2025-04-14"
              api_version := env.AZURE_API_VERSION.getD "2025-01-01-preview"
              azure_endpoint := env.AZURE_ENDPOINT.getD
                "https://api.uhg.com/api/cloud/api-management/ai-gateway/1.0"
              azure_ad_token := tok
              projectId := env.AZURE_PROJECT_ID.getD ""
              token_expiry := now + tokenLifetime }), .selectModel :: evs)
      | (.error e, evs) => (.error e, .selectModel :: evs)
  else
    (.error ("Unsupported MODEL_PROVIDER: " ++ providerOf env ++ ". Supported: openai, azure"),
     [.selectModel])

/-- One `run`/`invoke` call on whichever model client the agent holds:
`OpenAIChat` has no refresh logic and forwards directly;
`AutoRefreshAzureOpenAI` runs its refresh check first. -/
def modelInvoke (env : Env) (respond : TokenRequest → TokenResponse) (now : Int) :
    ModelClient → Except String ModelClient × List Ev
  | .OpenAIChat i k => (.ok (.OpenAIChat i k), [])
  | .AzureModel st =>
    match st.invoke env respond now with
    | (.ok (st2, _), evs) => (.ok (.AzureModel st2), evs)
    | (.error e, evs) => (.error e, evs)

/-- A sequence of `run`/`invoke` calls at the given times, threading the
model client's state and accumulating the event trace. -/
def invokeSeq (env : Env) (respond : TokenRequest → TokenResponse) :
    List Int → ModelClient → Except String ModelClient × List Ev
  | [], m => (.ok m, [])
  | t :: ts, m =>
    match modelInvoke env respond t m with
    | (.ok m2, evs) =>
      let rest := invokeSeq env respond ts m2
      (rest.1, evs ++ rest.2)
    | (.error e, evs) => (.error e, evs)

/-- The CLI loop body of `cli.py::main`, run over a list of input lines
(each line as returned by `input()`): a line whose `lower()` is in
`['exit', 'quit', 'q']` breaks out of the loop; a line that is blank after
`strip()` is skipped; any other line is forwarded unmodified to
`agent.print_response`. Returns the forwarded lines in order, paired with
`true` when the loop ended via an exit keyword (rather than exhausting the
input). -/
def mainLoop : List String → List String × Bool
  | [] => ([], false)
  | q :: rest =>
    if pyLower q = "exit" ∨ pyLower q = "quit" ∨ pyLower q = "q" then
      ([], true)
    else if pyStrip q = "" then
      mainLoop rest
    else
      let r := mainLoop rest
      (q :: r.1, r.2)

/-- The value returned by `sql_agent.run(...)` in the HTTP handler: the
handler reads `.content` when the attribute exists, else `str(response)`. -/
structure RunOutput where
  content : Option String
  asString : String
deriving DecidableEq

/-- An HTTP reply from the `/query` route: 200 with a `response` body, or a
500 `HTTPException` whose `detail` carries the exception message. -/
inductive HttpReply where
  | ok (response : String)
  | serverError (detail : String)
deriving DecidableEq

/-- Status code of an `HttpReply`. -/
def HttpReply.statusCode : HttpReply → Nat
  | .ok _ => 200
  | .serverError _ => 500

/-- Embeds `execute_query` from `src/mcp/server.py`: runs the agent on the query;
on success wraps `response.content if hasattr(response, 'content') else
str(response)` in a 200 `QueryResponse`; on any exception raises
`HTTPException(status_code=500, detail=str(e))`. -/
def execute_query (run : String → Except String RunOutput) (query : String) :
    HttpReply :=
  match run query with
  | .ok resp => .ok (match resp.content with | some c => c | none => resp.asString)
  | .error e => .serverError e

/-! ### Concrete fixtures used by witnesses and counterexamples -/

/-- An environment configured for the azure provider. -/
def envAzure : Env :=
  { MODEL_PROVIDER := some "azure"
    OPENAI_API_KEY := none
    OPENAI_MODEL_ID := none
    AZURE_CLIENT_ID := some "client-id"
    AZURE_CLIENT_SECRET := some "client-secret"
    AZURE_PROJECT_ID := some "proj-1"
    AZURE_MODEL_ID := none
    AZURE_DEPLOYMENT := some "deploy-B"
    AZURE_API_VERSION := none
    AZURE_ENDPOINT := none }

/-- An environment configured for the openai provider. -/
def envOpenai : Env :=
  { MODEL_PROVIDER := some "openai"
    OPENAI_API_KEY := some "sk-key"
    OPENAI_MODEL_ID := none
    AZURE_CLIENT_ID := none
    AZURE_CLIENT_SECRET := none
    AZURE_PROJECT_ID := none
    AZURE_MODEL_ID := none
    AZURE_DEPLOYMENT := none
    AZURE_API_VERSION := none
    AZURE_ENDPOINT := none }

/-- A token endpoint that always answers 200 with token `"tok2"`. -/
def respondOk : TokenRequest → TokenResponse :=
  fun _ => { status := 200, access_token := "tok2", expires_in := 1800 }

/-- A token endpoint that always answers 503. -/
def respondFail : TokenRequest → TokenResponse :=
  fun _ => { status := 503, access_token := "", expires_in := 0 }

/-- A concrete azure model state whose token expires at time 10000 and whose
deployment field differs from `envAzure`'s `AZURE_DEPLOYMENT`. -/
def stAzure : AutoRefreshAzureOpenAI :=
  { id := "gpt-4.1"
    azure_deployment := "deploy-A"
    api_version := "2025-01-01-preview"
    azure_endpoint := "https://api.uhg.com/api/cloud/api-management/ai-gateway/1.0"
    azure_ad_token := "tok1"
    projectId := "proj-1"
    token_expiry := 10000 }

/-! ### Token refresh: C1 and C2 -/

/-- Helper: whenever the refresh check returns successfully, the current time
is strictly inside the safety margin of the (possibly updated) expiry. -/
theorem refresh_leaves_margin (env : Env) (respond : TokenRequest → TokenResponse)
    (now : Int) (st st2 : AutoRefreshAzureOpenAI) (evs : List Ev)
    (h : st.refresh_token_if_needed env respond now = (.ok st2, evs)) :
    now < st2.token_expiry - refreshMargin := by
  unfold AutoRefreshAzureOpenAI.refresh_token_if_needed at h
  split at h
  · rcases hg : get_access_token env respond with ⟨r, evs1⟩
    rw [hg] at h
    cases r with
    | ok tok =>
      simp only [Prod.mk.injEq, Except.ok.injEq] at h
      have h2 : st2.token_expiry = now + tokenLifetime := by
        rw [← h.1]
      rw [h2]
      simp only [refreshMargin, tokenLifetime]
      omega
    | error e => simp at h
  · rename_i hfresh
    simp only [Prod.mk.injEq, Except.ok.injEq] at h
    rw [← h.1]
    omega

/-- C1: every `invoke` forwards the outward call with a credential strictly
inside the 5-minute safety margin: at the moment of forwarding, `now` is
strictly before the stored `token_expiry` minus 5 minutes, and the forwarded
call uses the stored `azure_ad_token`. -/
theorem invoke_uses_unexpired_token (env : Env) (respond : TokenRequest → TokenResponse)
    (now : Int) (st st2 : AutoRefreshAzureOpenAI) (tok : String) (evs : List Ev)
    (h : st.invoke env respond now = (.ok (st2, tok), evs)) :
    now < st2.token_expiry - refreshMargin ∧ tok = st2.azure_ad_token := by
  unfold AutoRefreshAzureOpenAI.invoke at h
  rcases hg : st.refresh_token_if_needed env respond now with ⟨r, evs1⟩
  rw [hg] at h
  cases r with
  | ok stx =>
    simp only [Prod.mk.injEq, Except.ok.injEq] at h
    obtain ⟨⟨hst, htok⟩, -⟩ := h
    have hm := refresh_leaves_margin env respond now st stx evs1 hg
    rw [hst] at hm
    exact ⟨hm, by rw [← hst]; exact htok.symm⟩
  | error e => simp at h

/-- C1 witness: a concrete fresh-token invocation. -/
theorem invoke_uses_unexpired_token_witness :
    (0 : Int) < stAzure.token_expiry - refreshMargin ∧ "tok1" = stAzure.azure_ad_token :=
  invoke_uses_unexpired_token envAzure respondOk 0 stAzure stAzure "tok1" [] rfl

/-- C2: for the azure provider with a successful token endpoint, a call one
second before `token_expiry - margin` does not refresh (state unchanged, no
fetch, no POST), while a call one second after fetches a new token over the
network and resets the expiry to the call time plus one hour. -/
theorem refresh_margin_boundary (env : Env) (respond : TokenRequest → TokenResponse)
    (st : AutoRefreshAzureOpenAI)
    (hp : providerOf env = "azure")
    (hs : isSuccess (respond (tokenRequest env)).status) :
    st.refresh_token_if_needed env respond (st.token_expiry - refreshMargin - 1) =
      (.ok st, []) ∧
    st.refresh_token_if_needed env respond (st.token_expiry - refreshMargin + 1) =
      (.ok { st with azure_ad_token := (respond (tokenRequest env)).access_token,
                     token_expiry := st.token_expiry - refreshMargin + 1 + tokenLifetime },
       [.fetchToken, .httpPost (tokenRequest env)]) := by
  have hga : get_access_token env respond =
      (.ok (respond (tokenRequest env)).access_token,
       [.fetchToken, .httpPost (tokenRequest env)]) := by
    unfold get_access_token
    rw [if_neg (by simp [hp]), if_pos hs]
  constructor
  · unfold AutoRefreshAzureOpenAI.refresh_token_if_needed
    rw [if_neg (by omega)]
  · unfold AutoRefreshAzureOpenAI.refresh_token_if_needed
    rw [if_pos (by omega), hga]

/-- C2 witness: the boundary behavior at the concrete state `stAzure`
(expiry 10000) under the always-succeeding endpoint `respondOk`. -/
theorem refresh_margin_boundary_witness :
    stAzure.refresh_token_if_needed envAzure respondOk
        (stAzure.token_expiry - refreshMargin - 1) = (.ok stAzure, []) ∧
    stAzure.refresh_token_if_needed envAzure respondOk
        (stAzure.token_expiry - refreshMargin + 1) =
      (.ok { stAzure with
               azure_ad_token := (respondOk (tokenRequest envAzure)).access_token,
               token_expiry := stAzure.token_expiry - refreshMargin + 1 + tokenLifetime },
       [.fetchToken, .httpPost (tokenRequest envAzure)]) :=
  refresh_margin_boundary envAzure respondOk stAzure (by decide)
    (by constructor <;> simp [respondOk])

/-! ### Refresh is an in-place field update, not an agent rebuild: C3 -/

/-- Helper: the Credential Provider's trace is `[fetchToken]` (dummy branch)
or `[fetchToken, httpPost req]` (azure branch); in particular it never
contains a `selectModel` event and has exactly one fetch. -/
theorem get_access_token_trace (env : Env) (respond : TokenRequest → TokenResponse) :
    (get_access_token env respond).2 = [.fetchToken] ∨
    (get_access_token env respond).2 = [.fetchToken, .httpPost (tokenRequest env)] := by
  unfold get_access_token
  split
  · left; rfl
  · split
    · right; rfl
    · right; rfl

/-- The state produced by refreshing `stAzure` at time 9800 under
`respondOk`: only the token and expiry change. -/
def refreshedSt : AutoRefreshAzureOpenAI :=
  { stAzure with azure_ad_token := "tok2", token_expiry := 9800 + tokenLifetime }

/-- The state a full rebuild (`get_model`) would produce at time 9800 under
`envAzure` and `respondOk`: it re-reads the environment, so it picks up
`AZURE_DEPLOYMENT = "deploy-B"`. -/
def rebuiltSt : AutoRefreshAzureOpenAI :=
  { id := "gpt-4.1"
    azure_deployment := "deploy-B"
    api_version := "2025-01-01-preview"
    azure_endpoint := "https://api.uhg.com/api/cloud/api-management/ai-gateway/1.0"
    azure_ad_token := "tok2"
    projectId := "proj-1"
    token_expiry := 9800 + tokenLifetime }

/-- C3 counterexample: at a concrete stale call (time 9800, expiry 10000) the
refresh does not rebuild the agent: it keeps the old model object's fields
(deployment `"deploy-A"`), emits no `selectModel` event, and its result
differs from what `get_model` — the fetch-credential → select-model →
reconstruct path the claim describes — would have produced (deployment
`"deploy-B"` from the environment). -/
theorem refresh_is_not_rebuild_counterexample :
    stAzure.refresh_token_if_needed envAzure respondOk 9800 =
      (.ok refreshedSt, [.fetchToken, .httpPost (tokenRequest envAzure)]) ∧
    get_model envAzure respondOk 9800 =
      (.ok (.AzureModel rebuiltSt),
       [.selectModel, .fetchToken, .httpPost (tokenRequest envAzure)]) ∧
    refreshedSt.azure_deployment = "deploy-A" ∧
    rebuiltSt.azure_deployment = "deploy-B" ∧
    refreshedSt ≠ rebuiltSt ∧
    Ev.selectModel ∉ [Ev.fetchToken, Ev.httpPost (tokenRequest envAzure)] := by
  refine ⟨rfl, rfl, rfl, rfl, by decide, by decide⟩

/-- C3 amended: on the transition to Stale, the manager does not rebuild the
agent; it refreshes the credential by updating the existing model object in
place: `azure_ad_token` is reassigned from a fresh Credential Provider call
and `token_expiry` is reset to the call time plus one hour, every other field
of the model object is left unchanged, exactly one credential fetch occurs,
and no model selection runs. -/
theorem refresh_mutates_token_fields_only (env : Env)
    (respond : TokenRequest → TokenResponse) (now : Int)
    (st st2 : AutoRefreshAzureOpenAI) (evs : List Ev)
    (hstale : now ≥ st.token_expiry - refreshMargin)
    (h : st.refresh_token_if_needed env respond now = (.ok st2, evs)) :
    st2.id = st.id ∧
    st2.azure_deployment = st.azure_deployment ∧
    st2.api_version = st.api_version ∧
    st2.azure_endpoint = st.azure_endpoint ∧
    st2.projectId = st.projectId ∧
    st2.token_expiry = now + tokenLifetime ∧
    get_access_token env respond = (.ok st2.azure_ad_token, evs) ∧
    numFetches evs = 1 ∧
    Ev.selectModel ∉ evs := by
  unfold AutoRefreshAzureOpenAI.refresh_token_if_needed at h
  rw [if_pos hstale] at h
  rcases hg : get_access_token env respond with ⟨r, evs1⟩
  rw [hg] at h
  cases r with
  | ok tok =>
    simp only [Prod.mk.injEq, Except.ok.injEq] at h
    obtain ⟨hst, hevs⟩ := h
    subst hst
    subst hevs
    have htrace := get_access_token_trace env respond
    rw [hg] at htrace
    simp only at htrace
    refine ⟨rfl, rfl, rfl, rfl, rfl, rfl, rfl, ?_, ?_⟩
    · rcases htrace with h1 | h1 <;> rw [h1] <;> rfl
    · rcases htrace with h1 | h1 <;> rw [h1] <;> simp
  | error e => simp at h

/-- C3 amended witness: the in-place mutation at the concrete stale call. -/
theorem refresh_mutates_token_fields_only_witness :
    refreshedSt.id = stAzure.id ∧
    refreshedSt.azure_deployment = stAzure.azure_deployment ∧
    refreshedSt.api_version = stAzure.api_version ∧
    refreshedSt.azure_endpoint = stAzure.azure_endpoint ∧
    refreshedSt.projectId = stAzure.projectId ∧
    refreshedSt.token_expiry = 9800 + tokenLifetime ∧
    get_access_token envAzure respondOk =
      (.ok refreshedSt.azure_ad_token,
       [.fetchToken, .httpPost (tokenRequest envAzure)]) ∧
    numFetches [.fetchToken, .httpPost (tokenRequest envAzure)] = 1 ∧
    Ev.selectModel ∉ [Ev.fetchToken, Ev.httpPost (tokenRequest envAzure)] :=
  refresh_mutates_token_fields_only envAzure respondOk 9800 stAzure refreshedSt
    [.fetchToken, .httpPost (tokenRequest envAzure)] (by decide) rfl

/-! ### Model selection: C4 -/

/-- An environment whose provider is neither openai nor azure. -/
def envGemini : Env :=
  { MODEL_PROVIDER := some "Gemini"
    OPENAI_API_KEY := none
    OPENAI_MODEL_ID := none
    AZURE_CLIENT_ID := none
    AZURE_CLIENT_SECRET := none
    AZURE_PROJECT_ID := none
    AZURE_MODEL_ID := none
    AZURE_DEPLOYMENT := none
    AZURE_API_VERSION := none
    AZURE_ENDPOINT := none }

/-- C4: for every provider value other than `"openai"` and `"azure"` (after
lowercasing, with `"openai"` as the default when `MODEL_PROVIDER` is unset),
`get_model` fails with a configuration error whose message names the
unsupported value and the supported set `openai, azure`, performing no
credential fetch and no network call. -/
theorem unknown_provider_config_error (env : Env)
    (respond : TokenRequest → TokenResponse) (now : Int)
    (h1 : providerOf env ≠ "openai") (h2 : providerOf env ≠ "azure") :
    get_model env respond now =
      (.error ("Unsupported MODEL_PROVIDER: " ++ providerOf env ++
               ". Supported: openai, azure"),
       [.selectModel]) := by
  unfold get_model
  rw [if_neg h1, if_neg h2]

/-- C4 witness: `MODEL_PROVIDER=Gemini` lowercases to `"gemini"` and is
rejected with the message naming it. -/
theorem unknown_provider_config_error_witness :
    get_model envGemini respondOk 0 =
      (.error ("Unsupported MODEL_PROVIDER: " ++ providerOf envGemini ++
               ". Supported: openai, azure"),
       [.selectModel]) :=
  unknown_provider_config_error envGemini respondOk 0 (by decide) (by decide)

/-! ### The openai provider never exchanges a token: C5 -/

/-- Helper: an `OpenAIChat` client has no refresh logic; any sequence of
invocations leaves it unchanged and emits no events at all. -/
theorem invokeSeq_openai (env : Env) (respond : TokenRequest → TokenResponse)
    (times : List Int) (i k : String) :
    invokeSeq env respond times (.OpenAIChat i k) = (.ok (.OpenAIChat i k), []) := by
  induction times with
  | nil => rfl
  | cons t ts ih => simp [invokeSeq, modelInvoke, ih]

/-- C5: for the openai provider, across agent construction (`get_model`) and
any sequence of `run`/`invoke` calls, the Credential Provider
(`get_access_token`) is never invoked at all — in particular never more than
once, and only construction could ever invoke it. -/
theorem openai_never_fetches_token (env : Env)
    (respond : TokenRequest → TokenResponse) (now : Int) (times : List Int)
    (hp : providerOf env = "openai") :
    numFetches (get_model env respond now).2 = 0 ∧
    ∀ m, (get_model env respond now).1 = .ok m →
      numFetches (invokeSeq env respond times m).2 = 0 := by
  constructor
  · unfold get_model
    rw [if_pos hp]
    split <;> rfl
  · intro m hm
    unfold get_model at hm
    rw [if_pos hp] at hm
    split at hm
    · simp at hm
    · simp only [Except.ok.injEq] at hm
      rw [← hm, invokeSeq_openai]
      rfl

/-- C5 witness: with `MODEL_PROVIDER=openai` and a key set, neither
construction nor a three-call sequence ever invokes the Credential
Provider. -/
theorem openai_never_fetches_token_witness :
    numFetches (get_model envOpenai respondOk 0).2 = 0 ∧
    numFetches (invokeSeq envOpenai respondOk [1, 2, 3]
      (.OpenAIChat "gpt-4" "sk-key")).2 = 0 :=
  ⟨(openai_never_fetches_token envOpenai respondOk 0 [1, 2, 3] (by decide)).1,
   (openai_never_fetches_token envOpenai respondOk 0 [1, 2, 3] (by decide)).2
     (.OpenAIChat "gpt-4" "sk-key") rfl⟩

/-! ### Credential Provider: C6 and C7 -/

/-- C6: when the provider requires no token exchange (`MODEL_PROVIDER` is
not `"azure"` after lowercasing), `get_access_token` returns the fixed
placeholder credential immediately and performs no network call. -/
theorem dummy_token_no_network (env : Env) (respond : TokenRequest → TokenResponse)
    (h : providerOf env ≠ "azure") :
    get_access_token env respond = (.ok "dummy_token_for_compatibility", [.fetchToken]) ∧
    numPosts (get_access_token env respond).2 = 0 := by
  have hga : get_access_token env respond =
      (.ok "dummy_token_for_compatibility", [.fetchToken]) := by
    unfold get_access_token
    rw [if_pos h]
  exact ⟨hga, by rw [hga]; rfl⟩

/-- C6 witness: the openai environment gets the placeholder with zero
POSTs. -/
theorem dummy_token_no_network_witness :
    get_access_token envOpenai respondOk =
      (.ok "dummy_token_for_compatibility", [.fetchToken]) ∧
    numPosts (get_access_token envOpenai respondOk).2 = 0 :=
  dummy_token_no_network envOpenai respondOk (by decide)

/-- C7: when the provider requires a token exchange, `get_access_token`
performs exactly one form-encoded POST to the fixed token endpoint carrying
`grant_type`, `scope`, `client_id` and `client_secret` with a 60-second
timeout; a success status yields the response's `access_token`, and any
non-success status makes the call fail with the propagated HTTP error —
still with exactly the single POST, so nothing is retried. -/
theorem azure_token_exchange_single_post (env : Env)
    (respond : TokenRequest → TokenResponse)
    (hp : providerOf env = "azure") :
    (get_access_token env respond).2 = [.fetchToken, .httpPost (tokenRequest env)] ∧
    numPosts (get_access_token env respond).2 = 1 ∧
    tokenRequest env =
      { url := "https://api.uhg.com/oauth2/token"
        method := "POST"
        contentType := "application/x-www-form-urlencoded"
        grant_type := "client_credentials"
        scope := "https://api.uhg.com/.default"
        client_id := env.AZURE_CLIENT_ID
        client_secret := env.AZURE_CLIENT_SECRET
        timeout := 60 } ∧
    (isSuccess (respond (tokenRequest env)).status →
      (get_access_token env respond).1 = .ok (respond (tokenRequest env)).access_token) ∧
    (¬ isSuccess (respond (tokenRequest env)).status →
      (get_access_token env respond).1 =
        .error ("HTTP status error: " ++ toString (respond (tokenRequest env)).status)) := by
  have hnot : ¬ providerOf env ≠ "azure" := fun h => h hp
  by_cases hs : isSuccess (respond (tokenRequest env)).status
  · have hga : get_access_token env respond =
        (.ok (respond (tokenRequest env)).access_token,
         [.fetchToken, .httpPost (tokenRequest env)]) := by
      unfold get_access_token
      rw [if_neg hnot, if_pos hs]
    refine ⟨by rw [hga], by rw [hga]; rfl, rfl, fun _ => by rw [hga], fun hc => absurd hs hc⟩
  · have hga : get_access_token env respond =
        (.error ("HTTP status error: " ++ toString (respond (tokenRequest env)).status),
         [.fetchToken, .httpPost (tokenRequest env)]) := by
      unfold get_access_token
      rw [if_neg hnot, if_neg hs]
    refine ⟨by rw [hga], by rw [hga]; rfl, rfl, fun hc => absurd hc hs, fun _ => by rw [hga]⟩

/-- C7 witness: the azure environment against a 503-answering endpoint still
issues exactly one POST and propagates the HTTP error. -/
theorem azure_token_exchange_single_post_witness :
    (get_access_token envAzure respondFail).2 =
      [.fetchToken, .httpPost (tokenRequest envAzure)] ∧
    numPosts (get_access_token envAzure respondFail).2 = 1 ∧
    tokenRequest envAzure =
      { url := "https://api.uhg.com/oauth2/token"
        method := "POST"
        contentType := "application/x-www-form-urlencoded"
        grant_type := "client_credentials"
        scope := "https://api.uhg.com/.default"
        client_id := envAzure.AZURE_CLIENT_ID
        client_secret := envAzure.AZURE_CLIENT_SECRET
        timeout := 60 } ∧
    (isSuccess (respondFail (tokenRequest envAzure)).status →
      (get_access_token envAzure respondFail).1 =
        .ok (respondFail (tokenRequest envAzure)).access_token) ∧
    (¬ isSuccess (respondFail (tokenRequest envAzure)).status →
      (get_access_token envAzure respondFail).1 =
        .error ("HTTP status error: " ++
                toString (respondFail (tokenRequest envAzure)).status)) :=
  azure_token_exchange_single_post envAzure respondFail (by decide)

/-! ### CLI loop: C8 -/

/-- C8 counterexample: the input `"  exit  "` case-insensitively equals
`"exit"` once stripped of whitespace, yet the loop does not terminate on it:
the exit comparison uses the unstripped line, so the line is forwarded to the
agent and the loop goes on. -/
theorem cli_unstripped_exit_counterexample :
    pyLower (pyStrip "  exit  ") = "exit" ∧
    mainLoop ["  exit  "] = (["  exit  "], false) := by
  exact ⟨by decide, by decide⟩

/-- C8 amended: for every line read by the CLI loop, the exit comparison is
made on the lowercased line without stripping: a line whose `lower()` is
exactly `"exit"`, `"quit"` or `"q"` terminates the loop without forwarding
anything; otherwise a line that is blank after stripping is ignored and the
loop continues; every other line is forwarded unmodified to the agent. -/
theorem cli_loop_step (q : String) (rest : List String) :
    (pyLower q = "exit" ∨ pyLower q = "quit" ∨ pyLower q = "q" →
      mainLoop (q :: rest) = ([], true)) ∧
    (¬(pyLower q = "exit" ∨ pyLower q = "quit" ∨ pyLower q = "q") → pyStrip q = "" →
      mainLoop (q :: rest) = mainLoop rest) ∧
    (¬(pyLower q = "exit" ∨ pyLower q = "quit" ∨ pyLower q = "q") → pyStrip q ≠ "" →
      mainLoop (q :: rest) = (q :: (mainLoop rest).1, (mainLoop rest).2)) := by
  refine ⟨fun h => ?_, fun h1 h2 => ?_, fun h1 h2 => ?_⟩
  · simp only [mainLoop]
    rw [if_pos h]
  · simp only [mainLoop]
    rw [if_neg h1, if_pos h2]
  · simp only [mainLoop]
    rw [if_neg h1, if_neg h2]

/-- C8 amended witness: `"EXIT"` terminates without forwarding even with
input left, blank input is skipped, and `"hello"` is forwarded. -/
theorem cli_loop_step_witness :
    mainLoop ["EXIT", "ignored"] = ([], true) ∧
    mainLoop ["", "hello"] = mainLoop ["hello"] ∧
    mainLoop ["hello"] = (["hello"], false) :=
  ⟨(cli_loop_step "EXIT" ["ignored"]).1 (by decide),
   (cli_loop_step "" ["hello"]).2.1 (by decide) (by decide),
   (cli_loop_step "hello" []).2.2 (by decide) (by decide)⟩

/-! ### HTTP handler: C9 -/

/-- C9: for every `POST /query` request, a successful agent `run` yields a
200 reply whose body is the response's `content` (or its string form when
the attribute is absent), and a `run` that raises yields a 500 reply whose
`detail` is the exception's message. -/
theorem execute_query_status (run : String → Except String RunOutput) (query : String) :
    (∀ resp, run query = .ok resp →
      execute_query run query =
        .ok (match resp.content with | some c => c | none => resp.asString) ∧
      (execute_query run query).statusCode = 200) ∧
    (∀ e, run query = .error e →
      execute_query run query = .serverError e ∧
      (execute_query run query).statusCode = 500) := by
  constructor
  · intro resp h
    unfold execute_query
    rw [h]
    exact ⟨rfl, rfl⟩
  · intro e h
    unfold execute_query
    rw [h]
    exact ⟨rfl, rfl⟩

/-- A stubbed agent whose `run` returns a fixed response object. -/
def runStub : String → Except String RunOutput :=
  fun _ => .ok { content := some "stub text", asString := "RunResponse" }

/-- A stubbed agent whose `run` raises with message `"boom"`. -/
def runThrow : String → Except String RunOutput :=
  fun _ => .error "boom"

/-- C9 witness: the stubbed success gives 200 with the stub text; the
stubbed failure gives 500 with the message in `detail`. -/
theorem execute_query_status_witness :
    (execute_query runStub "list tables" = .ok "stub text" ∧
     (execute_query runStub "list tables").statusCode = 200) ∧
    (execute_query runThrow "list tables" = .serverError "boom" ∧
     (execute_query runThrow "list tables").statusCode = 500) :=
  ⟨(execute_query_status runStub "list tables").1
     { content := some "stub text", asString := "RunResponse" } rfl,
   (execute_query_status runThrow "list tables").2 "boom" rfl⟩

/-! ### Token expiry policy: C10 -/

/-- Helper: `get_access_token` depends only on the `status` and
`access_token` fields of the endpoint's response; two endpoints agreeing on
those (but reporting any `expires_in` whatsoever) are indistinguishable. -/
theorem get_access_token_ignores_expires_in (env : Env)
    (respond respond' : TokenRequest → TokenResponse)
    (hagree : ∀ req, (respond' req).status = (respond req).status ∧
                     (respond' req).access_token = (respond req).access_token) :
    get_access_token env respond' = get_access_token env respond := by
  unfold get_access_token
  by_cases hp : providerOf env ≠ "azure"
  · rw [if_pos hp, if_pos hp]
  · rw [if_neg hp, if_neg hp, (hagree (tokenRequest env)).1,
        (hagree (tokenRequest env)).2]

/-- C10: whenever a token is obtained — at model construction or during a
refresh — the stored expiry is set to exactly the current time plus one
hour, and the endpoint's response is consulted only for `status` and
`access_token`: a server-reported `expires_in` never influences the result. -/
theorem token_expiry_always_now_plus_hour (env : Env)
    (respond respond' : TokenRequest → TokenResponse) (now : Int)
    (st : AutoRefreshAzureOpenAI)
    (hagree : ∀ req, (respond' req).status = (respond req).status ∧
                     (respond' req).access_token = (respond req).access_token) :
    (∀ m evs, get_model env respond now = (.ok (.AzureModel m), evs) →
      m.token_expiry = now + tokenLifetime) ∧
    (now ≥ st.token_expiry - refreshMargin →
      ∀ st2 evs, st.refresh_token_if_needed env respond now = (.ok st2, evs) →
        st2.token_expiry = now + tokenLifetime) ∧
    get_access_token env respond' = get_access_token env respond ∧
    get_model env respond' now = get_model env respond now ∧
    st.refresh_token_if_needed env respond' now =
      st.refresh_token_if_needed env respond now := by
  have hga := get_access_token_ignores_expires_in env respond respond' hagree
  refine ⟨?_, ?_, hga, ?_, ?_⟩
  · intro m evs hm
    unfold get_model at hm
    split at hm
    · split at hm <;> simp at hm
    · split at hm
      · split at hm
        · simp at hm
        · rcases hg : get_access_token env respond with ⟨r, evs1⟩
          rw [hg] at hm
          cases r with
          | ok tok =>
            simp only [Prod.mk.injEq, Except.ok.injEq, ModelClient.AzureModel.injEq] at hm
            rw [← hm.1]
          | error e => simp at hm
      · simp at hm
  · intro hstale st2 evs hm
    unfold AutoRefreshAzureOpenAI.refresh_token_if_needed at hm
    rw [if_pos hstale] at hm
    rcases hg : get_access_token env respond with ⟨r, evs1⟩
    rw [hg] at hm
    cases r with
    | ok tok =>
      simp only [Prod.mk.injEq, Except.ok.injEq] at hm
      rw [← hm.1]
    | error e => simp at hm
  · unfold get_model
    rw [hga]
  · unfold AutoRefreshAzureOpenAI.refresh_token_if_needed
    rw [hga]

/-- An endpoint identical to `respondOk` except for a wildly different
server-reported `expires_in`. -/
def respondOkLongLife : TokenRequest → TokenResponse :=
  fun _ => { status := 200, access_token := "tok2", expires_in := 999999 }

/-- C10 witness: at the concrete azure construction and refresh, the expiry
is the call time plus one hour, and swapping the endpoint's `expires_in`
changes nothing. -/
theorem token_expiry_always_now_plus_hour_witness :
    rebuiltSt.token_expiry = 9800 + tokenLifetime ∧
    refreshedSt.token_expiry = 9800 + tokenLifetime ∧
    get_access_token envAzure respondOkLongLife = get_access_token envAzure respondOk :=
  ⟨(token_expiry_always_now_plus_hour envAzure respondOk respondOkLongLife 9800 stAzure
      (fun _ => ⟨rfl, rfl⟩)).1 rebuiltSt
      [.selectModel, .fetchToken, .httpPost (tokenRequest envAzure)] rfl,
   (token_expiry_always_now_plus_hour envAzure respondOk respondOkLongLife 9800 stAzure
      (fun _ => ⟨rfl, rfl⟩)).2.1 (by decide) refreshedSt
      [.fetchToken, .httpPost (tokenRequest envAzure)] rfl,
   (token_expiry_always_now_plus_hour envAzure respondOk respondOkLongLife 9800 stAzure
      (fun _ => ⟨rfl, rfl⟩)).2.2.1⟩
